import Mathlib

/-!
Shallow embedding of the webhook distribution and consumption pipeline:
the broker (`webhook-service/server.js`) and the consumer
(`solutions/webhook-sync/index.js`).

JavaScript strings are modelled as `List Char` (the type `Str` below), so
that every operation reduces inside the kernel; `str` converts a Lean
string literal to that representation.
-/

abbrev Str := List Char

def str (s : String) : Str := s.data

/-- JS `String.prototype.toLowerCase`, on the ASCII range the services use. -/
def jsToLower (s : Str) : Str := s.map Char.toLower

/-- JS `s.startsWith(pre)`. -/
def jsStartsWith (s pre : Str) : Bool := pre.isPrefixOf s

/-- JS `s.includes(sub)`: some suffix of `s` has `sub` as a prefix. -/
def jsIncludes : Str → Str → Bool
  | [], sub => sub.isEmpty
  | c :: rest, sub => sub.isPrefixOf (c :: rest) || jsIncludes rest sub

/-- A webhook subscription as created by `POST /subscriptions`
(server.js:65-75). -/
structure Subscription where
  id : Str
  url : Str
  events : List Str
  secret : Option Str
  active : Bool
  createdAt : Nat
  lastNotified : Option Nat
  successCount : Nat
  errorCount : Nat
deriving Repr, DecidableEq

/-- A change event as the `POST /webhook` handler reads it from the request
body (server.js:118-127); `properties` is the optional payload of changed
fields, `occurredAt` the optional occurrence timestamp. -/
structure Event where
  eventId : Option Str
  eventType : Str
  objectType : Str
  objectId : Str
  properties : Option (List (Str × Str))
  occurredAt : Option Nat
deriving Repr, DecidableEq

/-- The mandatory-field validation of the ingress handler (server.js:123):
`!event.eventType || !event.objectType || !event.objectId` rejects with 400;
a missing field is the empty string here. -/
def eventValid (e : Event) : Bool :=
  !e.eventType.isEmpty && !e.objectType.isEmpty && !e.objectId.isEmpty

/-- One disjunct of the fan-out pattern check (server.js:150-154):
`subscribedEvent === '*' || subscribedEvent === event.eventType ||
subscribedEvent.startsWith(event.objectType.toLowerCase())`. -/
def patternMatches (e : Event) (subscribedEvent : Str) : Bool :=
  subscribedEvent == str ("*") || subscribedEvent == e.eventType ||
    jsStartsWith subscribedEvent (jsToLower e.objectType)

/-- `subscription.events.some(...)` (server.js:150). -/
def eventMatch (sub : Subscription) (e : Event) : Bool :=
  sub.events.any (fun p => patternMatches e p)

/-- Whether the fan-out loop notifies a subscription: the `active` guard
(server.js:147) together with the pattern check (server.js:150-154). -/
def subscriptionMatches (sub : Subscription) (e : Event) : Bool :=
  sub.active && eventMatch sub e

/-- Stated from the spec's words (§4.1), for comparison with `matches`:
true iff `active` and some pattern equals `*`, equals the event type
exactly, or the pattern is case-insensitively a prefix of the event's
object type. -/
def specMatches (sub : Subscription) (e : Event) : Bool :=
  sub.active && sub.events.any (fun p =>
    p == str ("*") || p == e.eventType ||
      jsStartsWith (jsToLower e.objectType) (jsToLower p))

/-- A JSON field of the registration request body, in the shapes the
validation at server.js:58 distinguishes: absent, a string, or an array. -/
inductive BodyField where
  | absent
  | strVal (s : Str)
  | arrVal (l : List Str)
deriving Repr, DecidableEq

/-- JS truthiness of such a field: `undefined` and `""` are falsy, every
array (the empty one included) is truthy. -/
def truthy : BodyField → Bool
  | .absent => false
  | .strVal s => !s.isEmpty
  | .arrVal _ => true

/-- JS `Array.isArray`. -/
def isArray : BodyField → Bool
  | .arrVal _ => true
  | _ => false

/-- Outcome of `POST /subscriptions`: 400 with the missing-fields error, or
201 with the fresh subscription id. -/
inductive RegisterResult where
  | badRequest
  | created (subscriptionId : Str) (sub : Subscription)
deriving Repr, DecidableEq

/-- `POST /subscriptions` (server.js:55-89). The fresh UUID and the clock
are passed in; validation is `!url || !events || !Array.isArray(events)`. -/
def registerSubscription (newId : Str) (now : Nat) (url events secret : BodyField) :
    RegisterResult :=
  if !truthy url || !truthy events || !isArray events then .badRequest
  else
    .created newId
      { id := newId
        url := match url with | .strVal s => s | _ => []
        events := match events with | .arrVal l => l | _ => []
        secret := match secret with | .strVal s => some s | _ => none
        active := true
        createdAt := now
        lastNotified := none
        successCount := 0
        errorCount := 0 }

/-- Outcome of the single `axios.post` delivery attempt (server.js:196-200),
before axios applies its `validateStatus` policy. -/
inductive HttpOutcome where
  | netError
  | timeout
  | response (status : Nat)
deriving Repr, DecidableEq

/-- The `validateStatus` option passed to axios (server.js:199). -/
def validateStatus (status : Nat) : Bool := decide (status < 500)

/-- Axios rejects the delivery promise iff the request errored (network
failure or the 30s timeout) or `validateStatus` returned false. -/
def axiosThrows : HttpOutcome → Bool
  | .netError => true
  | .timeout => true
  | .response status => !validateStatus status

/-- `notifySubscriber` (server.js:178-222): on a non-throwing response the
success counter and last-notified timestamp are updated; in the catch branch
the error counter is incremented, the subscription is deactivated once that
counter exceeds 10, and the error is rethrown (the returned Bool is whether
the promise rejected). `now` is the success timestamp. -/
def notifySubscriber (sub : Subscription) (outcome : HttpOutcome) (now : Nat) :
    Subscription × Bool :=
  if axiosThrows outcome then
    let sub' := { sub with errorCount := sub.errorCount + 1 }
    (if sub'.errorCount > 10 then { sub' with active := false } else sub', true)
  else
    ({ sub with successCount := sub.successCount + 1, lastNotified := some now }, false)

/-- The fan-out of `POST /webhook` (server.js:144-174): one notification per
active, matching subscriber, `Promise.allSettled` over all of them, then the
fulfilled/rejected counts reported as `(notificationsSent, notificationsFailed)`.
`out` gives each subscriber's HTTP outcome. -/
def publishFanOut (subs : List Subscription) (e : Event)
    (out : Subscription → HttpOutcome) (now : Nat) : Nat × Nat :=
  let results := (subs.filter (fun s => subscriptionMatches s e)).map
    (fun s => (notifySubscriber s (out s) now).2)
  (results.count false, results.count true)

/-- `POST /webhook` (server.js:116-175): mandatory-field validation (400 is
`none`) and then the fan-out report. -/
def webhookHandler (subs : List Subscription) (e : Event)
    (out : Subscription → HttpOutcome) (now : Nat) : Option (Nat × Nat) :=
  if !eventValid e then none
  else some (publishFanOut subs e out now)

/-- A retained event record in Redis: a `webhook:events:<ts>:<uuid>` key and
the stored event JSON (server.js:137-138; the 24h EX expiry is the retention
window — expired keys are simply absent from the store). -/
structure StoredEvent where
  key : Str
  event : Event
deriving Repr, DecidableEq

/-- The routes of the broker that matter to replay dispatch. -/
inductive Route where
  | webhookRoute
  | replayRoute (eventId : Str)
  | otherRoute
deriving Repr, DecidableEq

/-- Express's routing of a POST to a handler, as the broker registers its
routes: a request is handled by the route whose path pattern matches the
request URL (framework semantics the source relies on). -/
def dispatchRoute (url : Str) : Route :=
  if url == str ("/webhook") then .webhookRoute
  else if jsStartsWith url (str ("/replay/")) then .replayRoute (url.drop 8)
  else .otherRoute

/-- What `POST /replay/:eventId` does (server.js:225-251). In its found
branch the source evaluates `app.post('/webhook')(req, res)`: in Express,
`app.post(path)` with no handler argument registers an empty route and
returns the app itself, so the application re-dispatches the UNCHANGED
request — whose URL is still `/replay/:eventId` — through the router;
`redispatch` records which route that reaches and with which body. -/
inductive ReplayAction where
  | respond404
  | redispatch (r : Route) (body : Event)
deriving Repr, DecidableEq

/-- The replay handler (server.js:225-251): scan the retained events for one
whose `eventId` equals the path parameter; 404 when none is found, otherwise
set `req.body` to the stored event and evaluate `app.post('/webhook')(req, res)`
on the unchanged request URL. -/
def replayHandler (store : List StoredEvent) (reqUrl : Str) (eventId : Str) :
    ReplayAction :=
  match store.find? (fun se => se.event.eventId == some eventId) with
  | none => .respond404
  | some se => .redispatch (dispatchRoute reqUrl) se.event

/-- Consumer configuration defaults (webhook-sync index.js:10-21). -/
def maxRetries : Nat := 3

/-- Default `config.processingDelay` in ms (index.js:19). -/
def processingDelay : Nat := 1000

/-- Base delay of the exponential backoff handed to the queue (index.js:271). -/
def backoffBaseDelay : Nat := 2000

/-- An inbound webhook request as the consumer's handler sees it: the
signature header, the serialized body the HMAC covers, and the extracted
event (`req.body.event || req.body`, index.js:193). -/
structure InboundRequest where
  signatureHeader : Option Str
  rawBody : Str
  event : Event
deriving Repr, DecidableEq

/-- `validateWebhookSignature` (index.js:240-254): its first statement is
`return true` — validation is unconditionally bypassed (the source comment
calls this temporarily disabled for debugging); everything below that
statement is dead code. -/
def validateWebhookSignature (_req : InboundRequest) : Bool := true

/-- The dead code below the early `return true` (index.js:244-253): reject a
missing header, else compare it with `v1=` + the hex HMAC-SHA256 of the
serialized body under the configured secret. `hmac` abstracts
`crypto.createHmac('sha256', secret).update(body).digest('hex')`. -/
def deadCodeSignatureCheck (hmac : Str → Str → Str) (secret : Str)
    (req : InboundRequest) : Bool :=
  match req.signatureHeader with
  | none => false
  | some sig => sig == str ("v1=") ++ hmac secret req.rawBody

/-- The job payload `queueEventForProcessing` builds (index.js:256-264);
`occurredAt` is `event.occurredAt || Date.now()` (JS: `0` is falsy too). -/
structure JobData where
  eventType : Str
  objectType : Str
  objectId : Str
  properties : Option (List (Str × Str))
  occurredAt : Nat
deriving Repr, DecidableEq

/-- `queueEventForProcessing` (index.js:256-274): the job data placed on the
queue; the queue options are `delay: processingDelay`, `attempts: maxRetries`,
exponential backoff with base `backoffBaseDelay`. -/
def queueEventForProcessing (e : Event) (now : Nat) : JobData :=
  { eventType := e.eventType
    objectType := e.objectType
    objectId := e.objectId
    properties := e.properties
    occurredAt := match e.occurredAt with
      | some t => if t = 0 then now else t
      | none => now }

/-- Result of `handleWebhook` (index.js:184-238): 401 on a failed signature
check, otherwise 200 with the job enqueued. -/
inductive IngestResult where
  | rejected401
  | accepted (job : JobData)
deriving Repr, DecidableEq

/-- `handleWebhook` (index.js:184-238): extract the event, run the
(bypassed) signature check, enqueue the job. -/
def handleWebhook (req : InboundRequest) (now : Nat) : IngestResult :=
  if !validateWebhookSignature req then .rejected401
  else .accepted (queueEventForProcessing req.event now)

/-- A CRM object as `fetchObjectFromHubSpot` returns it and as the partial
branch of `processObjectSync` builds it (`{id, properties}`). -/
structure CrmObject where
  id : Str
  properties : List (Str × Str)
  updatedAt : Option Str
deriving Repr, DecidableEq

/-- Result of the axios GET inside `fetchObjectFromHubSpot`
(index.js:331-366): a 404 is swallowed and becomes `null`; any other error
(network, timeout, CRM 5xx) is rethrown. -/
inductive CrmResult where
  | found (obj : CrmObject)
  | notFound
  | fetchError
deriving Repr, DecidableEq

/-- Result of `sendToDatabox` (index.js:416-432): it rethrows on any error. -/
inductive SinkResult where
  | ok
  | sinkError
deriving Repr, DecidableEq

/-- The property list the full company fetch requests from the CRM
(index.js:337-338); a payload lacking one of these is incomplete. -/
def fullCompanyProps : List Str :=
  [str ("name"), str ("domain"), str ("industry"), str ("founded_year"),
   str ("hs_lastmodifieddate")]

/-- Whether a property payload carries every field of the full company
property set (the complement of the spec's "partial property set"). -/
def isFullPropertySet (props : List (Str × Str)) : Bool :=
  fullCompanyProps.all (fun k => props.any (fun kv => kv.1 == k))

/-- The fetch condition of `processObjectSync` (index.js:284):
`eventType.includes('creation') || !properties`. -/
def shouldFetchFull (job : JobData) : Bool :=
  jsIncludes job.eventType (str ("creation")) || job.properties.isNone

/-- Decimal value of a digit character. -/
def digitVal (c : Char) : Option Nat :=
  if c.isDigit then some (c.toNat - 48) else none

/-- Number coercion of a property value as the
`founded_year && !isNaN(founded_year)` guard plus `parseInt` use it
(index.js:402-403), on the all-digit year strings the pipeline carries. -/
def parseAllDigits (s : Str) : Option Nat :=
  if s.isEmpty then none
  else s.foldl (fun acc c =>
    match acc, digitVal c with
    | some n, some d => some (n * 10 + d)
    | _, _ => none) (some 0)

/-- JS `s.trim()` on the space-separated names the contact branch builds. -/
def jsTrim (s : Str) : Str :=
  ((s.dropWhile (fun c => c == ' ')).reverse.dropWhile (fun c => c == ' ')).reverse

/-- `propLookup props k` is JS `objectData.properties[k]`:
`none` plays `undefined`. -/
def propLookup (props : List (Str × Str)) (k : Str) : Option Str :=
  (props.find? (fun kv => kv.1 == k)).map (fun kv => kv.2)

/-- The sink record `convertToDataboxFormat` produces (index.js:394-414),
with each conditionally-assigned field as an `Option`. -/
structure DataboxRecord where
  date : Str
  objectId : Str
  objectType : Str
  companyAge : Option Int
  companiesUpdated : Option Nat
  companyName : Option Str
  industry : Option Str
  contactsUpdated : Option Nat
  contactName : Option Str
deriving Repr, DecidableEq

/-- `convertToDataboxFormat` (index.js:394-414). `currentYear` stands for
`new Date().getFullYear()` and `nowIso` for `new Date().toISOString()`. -/
def convertToDataboxFormat (currentYear : Nat) (nowIso : Str) (objectType : Str)
    (obj : CrmObject) : DataboxRecord :=
  let base : DataboxRecord :=
    { date := obj.updatedAt.getD nowIso
      objectId := obj.id
      objectType := objectType
      companyAge := none, companiesUpdated := none, companyName := none
      industry := none, contactsUpdated := none, contactName := none }
  if objectType == str ("companies") then
    { base with
      companyAge := ((propLookup obj.properties (str ("founded_year"))).bind
        parseAllDigits).map (fun y => (currentYear : Int) - (y : Int))
      companiesUpdated := some 1
      companyName := propLookup obj.properties (str ("name"))
      industry := propLookup obj.properties (str ("industry")) }
  else if objectType == str ("contacts") then
    { base with
      contactsUpdated := some 1
      contactName := some (jsTrim
        ((propLookup obj.properties (str ("firstname"))).getD [] ++ [' '] ++
          (propLookup obj.properties (str ("lastname"))).getD [])) }
  else base

/-- The batch the worker POSTs to the sink (`sendObjectToDatabox`,
index.js:368-379). -/
structure DataboxPayload where
  data : List DataboxRecord
  source : Str
deriving Repr, DecidableEq

/-- Outcome of one run of the `sync-object` processor: a normal return (the
queue marks the job completed) carrying the sink writes that happened, or a
rethrown error (the queue counts a failed attempt). -/
inductive ProcessOutcome where
  | completed (sinkWrites : List DataboxPayload)
  | threw
deriving Repr, DecidableEq

/-- `processObjectSync` (index.js:276-306) plus the `sendObjectToDatabox` it
calls (index.js:368-379): fetch the full object when the event type contains
`creation` or the payload is absent (a 404 fetch yields `null`, any other
fetch error rethrows); a `null` object returns without writing; otherwise
convert and push one payload to the sink, rethrowing on sink error. -/
def processObjectSync (job : JobData) (crm : CrmResult) (sink : SinkResult)
    (currentYear : Nat) (nowIso : Str) : ProcessOutcome :=
  let objectData : Except Unit (Option CrmObject) :=
    if shouldFetchFull job then
      match crm with
      | .found obj => .ok (some obj)
      | .notFound => .ok none
      | .fetchError => .error ()
    else
      .ok (some { id := job.objectId, properties := job.properties.getD [],
                  updatedAt := none })
  match objectData with
  | .error _ => .threw
  | .ok none => .completed []
  | .ok (some obj) =>
      match sink with
      | .ok => .completed
          [{ data := [convertToDataboxFormat currentYear nowIso job.objectType obj]
             source := str ("HubSpot-Webhook-") ++ job.objectType }]
      | .sinkError => .threw

/-- Modelled from the spec: the delayed-retry job lifecycle of §4.6. The
queue library driven through the options at index.js:266-273 is not part of
src/, so its state machine is taken from the spec:
`Pending(visible_at) → Processing → Done | Pending(now+backoff, attempt+1) | Failed`,
with `Failed` entered when the attempt count reaches max attempts. The
Processing stage is collapsed into the atomic `jobStep` below; every state
carries the number of attempts made. -/
inductive JobState where
  | pending (visibleAt : Nat) (attemptsMade : Nat)
  | done (attemptsMade : Nat)
  | failed (attemptsMade : Nat)
deriving Repr, DecidableEq

/-- Exponential backoff before retry `k` (1-based): base 2000 ms, multiplier
2 (the `backoff` option at index.js:269-272, spec §4.6). -/
def backoffDelay (attemptsMade : Nat) : Nat :=
  backoffBaseDelay * 2 ^ (attemptsMade - 1)

/-- Modelled from the spec (§4.6): one worker attempt on a pending job at
time `now` — a normal processor return moves it to `done`, a throw
re-enqueues it with exponential backoff while fewer than `maxAttempts`
attempts have been made, else moves it to terminal `failed`; `done` and
`failed` are terminal. -/
def jobStep (maxAttempts : Nat) (s : JobState) (threw : Bool) (now : Nat) :
    JobState :=
  match s with
  | .pending _ a =>
      if !threw then .done (a + 1)
      else if a + 1 < maxAttempts then .pending (now + backoffDelay (a + 1)) (a + 1)
      else .failed (a + 1)
  | .done a => .done a
  | .failed a => .failed a

/-- A sequence of attempts: each entry is (whether the processor threw, the
time of the attempt). -/
def runJobTrace (maxAttempts : Nat) (s : JobState) : List (Bool × Nat) → JobState
  | [] => s
  | (threw, now) :: rest => runJobTrace maxAttempts (jobStep maxAttempts s threw now) rest

/-- The state a freshly queued job starts in: visible after the configured
processing delay, no attempts made (the `delay` option at index.js:267). -/
def enqueuedJobState (now : Nat) : JobState := .pending (now + processingDelay) 0

/-- Attempts made so far, in any state. -/
def attemptsOf : JobState → Nat
  | .pending _ a => a
  | .done a => a
  | .failed a => a

/-- The `processingQueue.on('failed')` handler (index.js:148-151): a job
reaching the terminal failed state logs and bumps the
`webhook_sync_errors_total{error_type=job_failure}` counter by one. -/
def onFailedMetricBump : JobState → Nat
  | .failed _ => 1
  | _ => 0

/-- The evolution of one subscription's health across a sequence of delivery
attempts (each entry: the HTTP outcome and the time of that attempt): fold of
`notifySubscriber`. Only the Delivery Client's outcome callback mutates a
subscription after registration (server.js:203-218). -/
def runDeliveries (sub : Subscription) : List (HttpOutcome × Nat) → Subscription
  | [] => sub
  | (o, t) :: rest => runDeliveries (notifySubscriber sub o t).1 rest

/-- An active subscription with the single pattern `company.propertyChange`. -/
def subEx1 : Subscription :=
  { id := str ("s1"), url := str ("http://example.com/hook")
    events := [str ("company.propertyChange")], secret := none, active := true
    createdAt := 0, lastNotified := none, successCount := 0, errorCount := 0 }

/-- A `company.deleted` event on object type `company`. -/
def evEx1 : Event :=
  { eventId := some (str ("e1")), eventType := str ("company.deleted")
    objectType := str ("company"), objectId := str ("42")
    properties := none, occurredAt := none }

/-- An active wildcard subscriber with the given id. -/
def mkStarSub (i : Str) : Subscription :=
  { id := i, url := str ("http://example.com/") ++ i, events := [str ("*")]
    secret := none, active := true, createdAt := 0, lastNotified := none
    successCount := 0, errorCount := 0 }

/-- Outcome map where only subscriber `s2` is unreachable. -/
def outOneUnreachable : Subscription → HttpOutcome :=
  fun s => if s.id == str ("s2") then .netError else .response 200

/-- A valid propertyChange event used for fan-out scenarios. -/
def evEx3 : Event :=
  { eventId := some (str ("e3")), eventType := str ("company.propertyChange")
    objectType := str ("company"), objectId := str ("7")
    properties := none, occurredAt := none }

/-- A retained event with id `e-c3`. -/
def evReplay : Event :=
  { eventId := some (str ("e-c3")), eventType := str ("company.propertyChange")
    objectType := str ("company"), objectId := str ("42")
    properties := none, occurredAt := none }

/-- Its Redis record. -/
def storedReplay : StoredEvent :=
  { key := str ("webhook:events:1:k"), event := evReplay }

/-- An event arriving at the consumer. -/
def evIngest : Event :=
  { eventId := some (str ("e-c2")), eventType := str ("company.propertyChange")
    objectType := str ("company"), objectId := str ("42")
    properties := some [(str ("name"), str ("Acme"))], occurredAt := some 5 }

/-- An inbound consumer request that carries NO signature header. -/
def reqNoSignature : InboundRequest :=
  { signatureHeader := none, rawBody := str ("serialized-body"), event := evIngest }

/-- A propertyChange job whose payload carries only one of the five company
properties — an incomplete (partial) property set. -/
def jobIncomplete : JobData :=
  { eventType := str ("company.propertyChange"), objectType := str ("companies")
    objectId := str ("42"), properties := some [(str ("name"), str ("Acme"))]
    occurredAt := 0 }

/-- A creation job with no property payload. -/
def jobCreation : JobData :=
  { eventType := str ("company.creation"), objectType := str ("companies")
    objectId := str ("43"), properties := none, occurredAt := 0 }

/-- A fresh wildcard subscription (zero counters, active). -/
def subFresh : Subscription := mkStarSub (str ("s5"))

/-- Twelve consecutive delivery failures. -/
def twelveFailures : List (HttpOutcome × Nat) :=
  List.replicate 12 (HttpOutcome.netError, 0)

/-- The job-queue invariant: a pending job has strictly fewer attempts than
the maximum (so one more attempt is still allowed); terminal states have at
most the maximum. -/
def jobInv (maxA : Nat) : JobState → Prop
  | .pending _ a => a < maxA
  | .done a => a ≤ maxA
  | .failed a => a ≤ maxA

/-- A CRM object carrying the full company property set. -/
def fullCompanyObj : CrmObject :=
  { id := str ("43")
    properties := [(str ("name"), str ("Acme")), (str ("domain"), str ("acme.com")),
      (str ("industry"), str ("tech")), (str ("founded_year"), str ("1999")),
      (str ("hs_lastmodifieddate"), str ("2026"))]
    updatedAt := some (str ("2026-01-01")) }

theorem notifySubscriber_snd (s : Subscription) (o : HttpOutcome) (t : Nat) :
    (notifySubscriber s o t).2 = axiosThrows o := by
  by_cases h : axiosThrows o = true <;> simp [notifySubscriber, h]

theorem notifySubscriber_active_mono (s : Subscription) (o : HttpOutcome) (t : Nat)
    (h : s.active = false) : (notifySubscriber s o t).1.active = false := by
  by_cases ho : axiosThrows o = true <;> simp [notifySubscriber, ho]
  · split <;> simp [h]
  · exact h

theorem notifySubscriber_inv (s : Subscription) (o : HttpOutcome) (t : Nat)
    (h : s.errorCount > 10 → s.active = false) :
    (notifySubscriber s o t).1.errorCount > 10 →
      (notifySubscriber s o t).1.active = false := by
  by_cases ho : axiosThrows o = true <;> simp [notifySubscriber, ho]
  · by_cases hc : s.errorCount + 1 > 10 <;> simp [hc]
  · exact h

theorem runDeliveries_inv (os : List (HttpOutcome × Nat)) (s : Subscription)
    (h : s.errorCount > 10 → s.active = false) :
    (runDeliveries s os).errorCount > 10 → (runDeliveries s os).active = false := by
  induction os generalizing s with
  | nil => simpa [runDeliveries] using h
  | cons p rest ih =>
      obtain ⟨o, t⟩ := p
      simpa [runDeliveries] using ih (notifySubscriber s o t).1 (notifySubscriber_inv s o t h)

theorem runDeliveries_active_mono (os : List (HttpOutcome × Nat)) (s : Subscription)
    (h : s.active = false) : (runDeliveries s os).active = false := by
  induction os generalizing s with
  | nil => simpa [runDeliveries] using h
  | cons p rest ih =>
      obtain ⟨o, t⟩ := p
      simpa [runDeliveries] using
        ih (notifySubscriber s o t).1 (notifySubscriber_active_mono s o t h)

theorem count_bool_split (l : List Bool) : l.count false + l.count true = l.length := by
  induction l with
  | nil => rfl
  | cons b rest ih => cases b <;> simp [List.count_cons] <;> omega

theorem count_map_beq {α : Type} (f : α → Bool) (l : List α) (b : Bool) :
    (l.map f).count b = (l.filter (fun x => f x == b)).length := by
  induction l with
  | nil => rfl
  | cons x rest ih =>
      simp only [List.map_cons, List.count_cons, List.filter_cons, ih]
      cases hb : f x <;> cases b <;> simp [hb]

theorem jobStep_inv (maxA : Nat) (s : JobState) (b : Bool) (now : Nat)
    (h : jobInv maxA s) : jobInv maxA (jobStep maxA s b now) := by
  cases s with
  | pending v a =>
      simp only [jobInv] at h
      cases b with
      | false => simpa [jobStep, jobInv] using Nat.succ_le_of_lt h
      | true =>
          by_cases hc : a + 1 < maxA
          · simp [jobStep, jobInv, hc]
          · simpa [jobStep, jobInv, hc] using Nat.succ_le_of_lt h
  | done a => simpa [jobStep, jobInv] using h
  | failed a => simpa [jobStep, jobInv] using h

theorem runJobTrace_inv (maxA : Nat) (tr : List (Bool × Nat)) (s : JobState)
    (h : jobInv maxA s) : jobInv maxA (runJobTrace maxA s tr) := by
  induction tr generalizing s with
  | nil => simpa [runJobTrace] using h
  | cons p rest ih =>
      obtain ⟨b, now⟩ := p
      simpa [runJobTrace] using ih (jobStep maxA s b now) (jobStep_inv maxA s b now h)

theorem jobInv_attemptsOf (maxA : Nat) (s : JobState) (h : jobInv maxA s) :
    attemptsOf s ≤ maxA := by
  cases s with
  | pending v a => exact Nat.le_of_lt h
  | done a => exact h
  | failed a => exact h

theorem runJobTrace_failed (maxA a : Nat) (tr : List (Bool × Nat)) :
    runJobTrace maxA (.failed a) tr = .failed a := by
  induction tr with
  | nil => rfl
  | cons p rest ih => obtain ⟨b, now⟩ := p; simpa [runJobTrace, jobStep] using ih

theorem runJobTrace_done (maxA a : Nat) (tr : List (Bool × Nat)) :
    runJobTrace maxA (.done a) tr = .done a := by
  induction tr with
  | nil => rfl
  | cons p rest ih => obtain ⟨b, now⟩ := p; simpa [runJobTrace, jobStep] using ih

/-- C1 counterexample: an active subscription with the single pattern
`company.propertyChange` and a `company.deleted` event on object type
`company` — the code matches it (the pattern starts with the lowercased
object type), while the claim's rule (the pattern must equal `*`, equal the
event type exactly, or be a case-insensitive prefix of the object type)
rejects it: the claimed equivalence is false at this input. -/
theorem C1_matches_counterexample :
    subscriptionMatches subEx1 evEx1 = true ∧ specMatches subEx1 evEx1 = false := by
  decide

/-- C1 (amended): `matches(subscription, event)` is true iff the
subscription is active and at least one of its patterns equals `*`, equals
the event type exactly, or starts with the lowercased object type — that is,
the event's object type (lowercased; the pattern itself is not
case-normalized) is a prefix of the pattern, the reverse direction of the
prefix rule the spec states. In particular `company.propertyChange` also
matches every event whose object type is `company`, while a bare `company`
pattern does not match object types that merely begin with `company`. -/
theorem C1_matches_amended (sub : Subscription) (e : Event) :
    subscriptionMatches sub e = true ↔
      sub.active = true ∧ ∃ p ∈ sub.events,
        p = str ("*") ∨ p = e.eventType ∨ (jsToLower e.objectType).isPrefixOf p = true := by
  simp [subscriptionMatches, eventMatch, patternMatches, jsStartsWith,
    List.any_eq_true, Bool.or_eq_true, beq_iff_eq, or_assoc]

/-- C4 counterexample: a registration with a valid url and an EMPTY events
array is not rejected — `[]` is truthy and `Array.isArray([])` holds, so the
validation passes and a subscription is created (201), where the claim
demands a 400 `ValidationError`. -/
theorem C4_empty_events_accepted :
    registerSubscription (str ("sub-1")) 0
        (.strVal (str ("http://example.com/hook"))) (.arrVal []) .absent
      ≠ RegisterResult.badRequest := by
  decide

/-- C4 (amended): registration fails with 400 iff the url is missing/empty
or `events` is missing/falsy or not an array; every array — the empty one
included — passes, creating an active subscription with the submitted
patterns, zero counters, and returning its fresh id with 201. -/
theorem C4_register_amended (newId : Str) (now : Nat) (url events secret : BodyField) :
    (registerSubscription newId now url events secret = .badRequest ↔
      truthy url = false ∨ truthy events = false ∨ isArray events = false) ∧
    (isArray events = true → truthy url = true →
      ∃ sub, registerSubscription newId now url events secret = .created newId sub ∧
        sub.id = newId ∧ sub.active = true ∧ sub.successCount = 0 ∧
        sub.errorCount = 0 ∧ sub.lastNotified = none ∧
        sub.events = (match events with | .arrVal l => l | _ => [])) := by
  constructor
  · have hiff : registerSubscription newId now url events secret = .badRequest ↔
        (!truthy url || !truthy events || !isArray events) = true := by
      by_cases h : (!truthy url || !truthy events || !isArray events) = true
      · simp [registerSubscription, h]
      · simp [registerSubscription, h]
    rw [hiff]
    simp [Bool.or_eq_true, Bool.not_eq_true', or_assoc]
  · intro hArr hUrl
    have hTr : truthy events = true := by cases events <;> simp_all [truthy, isArray]
    simp [registerSubscription, hArr, hUrl, hTr]

/-- C4 witness: a concrete registration with a valid url and a wildcard
pattern list yields the created subscription with fresh id and zero counters. -/
theorem C4_register_amended_witness :
    ∃ sub, registerSubscription (str ("sub-2")) 5 (.strVal (str ("http://a.example")))
        (.arrVal [str ("*")]) .absent = .created (str ("sub-2")) sub ∧
      sub.id = str ("sub-2") ∧ sub.active = true ∧ sub.successCount = 0 ∧
      sub.errorCount = 0 ∧ sub.lastNotified = none ∧
      sub.events = (match (BodyField.arrVal [str ("*")] : BodyField) with
        | .arrVal l => l | _ => []) :=
  (C4_register_amended (str ("sub-2")) 5 (.strVal (str ("http://a.example")))
    (.arrVal [str ("*")]) .absent).2 (by decide) (by decide)

/-- C2: a payload whose signature header is missing is nevertheless accepted
with a job enqueued — the shipped `validateWebhookSignature` returns true
before any check runs (its own comment calls this a temporary debugging
measure) — even though the dead validation code directly below it rejects
this request under every possible HMAC function and secret. The claim
describes the dead code; the live code never returns 401. -/
theorem C2_signature_bypassed :
    handleWebhook reqNoSignature 5 = .accepted (queueEventForProcessing evIngest 5) ∧
    handleWebhook reqNoSignature 5 ≠ .rejected401 ∧
    ∀ hmac secret, deadCodeSignatureCheck hmac secret reqNoSignature = false :=
  ⟨by decide, by decide, fun hmac secret => rfl⟩

/-- C3: the replay endpoint's found branch never reaches the webhook
(publish) handler. Re-dispatching the unchanged request — which is what
`app.post('/webhook')(req, res)` amounts to, since `app.post(path)` with no
handler returns the app — routes the request back to its own
`/replay/:eventId` route, so the recorded event's deliveries are not
reproduced; a never-seen id does return 404 as the claim states. -/
theorem C3_replay_dispatch_bug :
    replayHandler [storedReplay] (str ("/replay/e-c3")) (str ("e-c3"))
        = .redispatch (.replayRoute (str ("e-c3"))) evReplay ∧
    dispatchRoute (str ("/replay/e-c3")) ≠ Route.webhookRoute ∧
    replayHandler [storedReplay] (str ("/replay/missing")) (str ("missing"))
        = .respond404 := by
  decide

/-- C5: `errorCount` grows by exactly one on every failed delivery; along
any run of delivery outcomes, the threshold invariant — an error count above
10 forces `active = false` — is preserved from registration (where it holds
vacuously) onward; a deactivated subscription is never reactivated by any
later outcome; and an inactive subscription matches no event, so the fan-out
makes no further delivery attempt to it. -/
theorem C5_health_tracker (sub : Subscription) (o : HttpOutcome) (t : Nat)
    (os : List (HttpOutcome × Nat)) (e : Event) (subs : List Subscription) :
    (axiosThrows o = true →
      (notifySubscriber sub o t).1.errorCount = sub.errorCount + 1) ∧
    ((sub.errorCount > 10 → sub.active = false) →
      (runDeliveries sub os).errorCount > 10 → (runDeliveries sub os).active = false) ∧
    (sub.active = false → (runDeliveries sub os).active = false) ∧
    (sub.active = false → subscriptionMatches sub e = false ∧
      sub ∉ subs.filter (fun s => subscriptionMatches s e)) := by
  refine ⟨?_, runDeliveries_inv os sub, runDeliveries_active_mono os sub, ?_⟩
  · intro h
    simp only [notifySubscriber, h, if_true]
    split <;> rfl
  · intro h
    have hm : subscriptionMatches sub e = false := by
      simp [subscriptionMatches, h]
    refine ⟨hm, ?_⟩
    intro hmem
    rw [List.mem_filter] at hmem
    simp [hm] at hmem

/-- C5 witness: a fresh subscription, one failed delivery, and a run of
twelve consecutive failures that crosses the threshold and deactivates it. -/
theorem C5_health_tracker_witness :
    (notifySubscriber subFresh .netError 0).1.errorCount = subFresh.errorCount + 1 ∧
    (runDeliveries subFresh twelveFailures).active = false :=
  ⟨(C5_health_tracker subFresh .netError 0 twelveFailures evEx3 []).1 (by decide),
   (C5_health_tracker subFresh .netError 0 twelveFailures evEx3 []).2.1
     (by decide) (by decide)⟩

/-- C6: the delivery promise rejects iff the request errored (network
failure or the 30 s timeout) or the response status is 500 or above; every
response below 500 — 4xx included — counts as delivered with no retry at the
broker: the success counter is incremented, the last-notified timestamp set,
and the error counter and active flag untouched; a failure increments the
error counter and leaves the success counter and timestamp untouched. -/
theorem C6_delivery_outcome (sub : Subscription) (o : HttpOutcome) (now : Nat) :
    ((notifySubscriber sub o now).2 = true ↔
      o = .netError ∨ o = .timeout ∨ ∃ status, o = .response status ∧ 500 ≤ status) ∧
    ((notifySubscriber sub o now).2 = false →
      (notifySubscriber sub o now).1.successCount = sub.successCount + 1 ∧
      (notifySubscriber sub o now).1.lastNotified = some now ∧
      (notifySubscriber sub o now).1.errorCount = sub.errorCount ∧
      (notifySubscriber sub o now).1.active = sub.active) ∧
    ((notifySubscriber sub o now).2 = true →
      (notifySubscriber sub o now).1.errorCount = sub.errorCount + 1 ∧
      (notifySubscriber sub o now).1.successCount = sub.successCount ∧
      (notifySubscriber sub o now).1.lastNotified = sub.lastNotified) := by
  cases o with
  | netError =>
      refine ⟨by simp [notifySubscriber, axiosThrows], by simp [notifySubscriber, axiosThrows], ?_⟩
      intro _
      simp only [notifySubscriber, axiosThrows, if_true]
      refine ⟨by split <;> rfl, by split <;> rfl, by split <;> rfl⟩
  | timeout =>
      refine ⟨by simp [notifySubscriber, axiosThrows], by simp [notifySubscriber, axiosThrows], ?_⟩
      intro _
      simp only [notifySubscriber, axiosThrows, if_true]
      refine ⟨by split <;> rfl, by split <;> rfl, by split <;> rfl⟩
  | response status =>
      by_cases hs : status < 500
      · have hf : axiosThrows (.response status) = false := by
          simp [axiosThrows, validateStatus, hs]
        refine ⟨?_, ?_, ?_⟩
        · simp [notifySubscriber, hf]
          omega
        · intro _
          simp [notifySubscriber, hf]
        · intro hc
          rw [notifySubscriber_snd] at hc
          rw [hf] at hc
          exact absurd hc (by simp)
      · have hf : axiosThrows (.response status) = true := by
          simp [axiosThrows, validateStatus, hs]
        refine ⟨?_, ?_, ?_⟩
        · simp [notifySubscriber, hf]
          omega
        · intro hc
          rw [notifySubscriber_snd, hf] at hc
          exact absurd hc (by simp)
        · intro _
          simp only [notifySubscriber, hf, if_true]
          refine ⟨by split <;> rfl, by split <;> rfl, by split <;> rfl⟩

/-- C6 witness: a 404 response at a concrete subscription is delivered, not
failed — counters per the theorem. -/
theorem C6_delivery_outcome_witness :
    (notifySubscriber subEx1 (.response 404) 7).1.successCount = subEx1.successCount + 1 ∧
    (notifySubscriber subEx1 (.response 404) 7).1.lastNotified = some 7 ∧
    (notifySubscriber subEx1 (.response 404) 7).1.errorCount = subEx1.errorCount ∧
    (notifySubscriber subEx1 (.response 404) 7).1.active = subEx1.active :=
  (C6_delivery_outcome subEx1 (.response 404) 7).2.1 (by decide)

/-- C7: the fan-out makes exactly one delivery attempt per matching active
subscriber, waits for all of them to settle, and reports the per-event pair
(succeeded, failed): the two counts always sum to the number of matching
subscribers, and each equals the number of matching subscribers whose own
outcome was respectively non-throwing or throwing — so one subscriber's
failure never removes a sibling's attempt and never fails the whole call.
Concretely, three active wildcard subscribers of which one is unreachable
report 2 sent and 1 failed. -/
theorem C7_fanout_report (subs : List Subscription) (e : Event)
    (out : Subscription → HttpOutcome) (now : Nat) :
    ((publishFanOut subs e out now).1 + (publishFanOut subs e out now).2
        = (subs.filter (fun s => subscriptionMatches s e)).length) ∧
    ((publishFanOut subs e out now).1
        = ((subs.filter (fun s => subscriptionMatches s e)).filter
            (fun s => axiosThrows (out s) == false)).length) ∧
    ((publishFanOut subs e out now).2
        = ((subs.filter (fun s => subscriptionMatches s e)).filter
            (fun s => axiosThrows (out s) == true)).length) ∧
    publishFanOut [mkStarSub (str ("s1")), mkStarSub (str ("s2")), mkStarSub (str ("s3"))]
        evEx3 outOneUnreachable 0 = (2, 1) := by
  have hmap : (subs.filter (fun s => subscriptionMatches s e)).map
        (fun s => (notifySubscriber s (out s) now).2)
      = (subs.filter (fun s => subscriptionMatches s e)).map
        (fun s => axiosThrows (out s)) := by
    apply List.map_congr_left
    intro s _
    exact notifySubscriber_snd s (out s) now
  refine ⟨?_, ?_, ?_, by decide⟩
  · simp only [publishFanOut]
    rw [hmap, count_bool_split, List.length_map]
  · simp only [publishFanOut]
    rw [hmap, count_map_beq]
  · simp only [publishFanOut]
    rw [hmap, count_map_beq]

/-- C8: starting from enqueue, the attempt count never exceeds the maximum
of 3; three consecutive failed attempts put the job in the terminal failed
state with exactly 3 attempts made; a failed job stays failed under every
further step (no 4th attempt); the failed-event handler bumps the error
metric (the job is observable, not silently dropped); and a non-final failed
attempt re-enters the queue delayed by 2000 · 2^(k-1) ms for retry k. -/
theorem C8_retry_exhaustion (t0 t1 t2 t3 now v a : Nat) (tr : List (Bool × Nat)) :
    attemptsOf (runJobTrace maxRetries (enqueuedJobState t0) tr) ≤ maxRetries ∧
    runJobTrace maxRetries (enqueuedJobState t0) [(true, t1), (true, t2), (true, t3)]
        = .failed 3 ∧
    runJobTrace maxRetries (.failed 3) tr = .failed 3 ∧
    onFailedMetricBump (.failed 3) = 1 ∧
    (a + 1 < maxRetries →
      jobStep maxRetries (.pending v a) true now
        = .pending (now + backoffBaseDelay * 2 ^ a) (a + 1)) := by
  refine ⟨?_, by rfl, runJobTrace_failed maxRetries 3 tr, rfl, ?_⟩
  · exact jobInv_attemptsOf _ _ (runJobTrace_inv maxRetries tr (enqueuedJobState t0)
      (by simp [enqueuedJobState, jobInv, maxRetries]))
  · intro h
    simp [jobStep, h, backoffDelay]

/-- C8 witness: a four-entry trace keeps the attempt count at 3, and the
first retry of a freshly visible job is delayed by exactly 2000 ms. -/
theorem C8_retry_exhaustion_witness :
    attemptsOf (runJobTrace maxRetries (enqueuedJobState 0)
      [(true, 1), (true, 2), (true, 3), (true, 4)]) ≤ maxRetries ∧
    jobStep maxRetries (.pending 0 0) true 10 = .pending (10 + backoffBaseDelay * 2 ^ 0) 1 :=
  ⟨(C8_retry_exhaustion 0 1 2 3 10 0 0 [(true, 1), (true, 2), (true, 3), (true, 4)]).1,
   (C8_retry_exhaustion 0 1 2 3 10 0 0 []).2.2.2.2 (by decide)⟩

/-- C9 counterexample: a propertyChange job carrying a strictly incomplete
property payload (only `name`, none of the other four company properties) is
processed WITHOUT any CRM fetch — the fetch guard is false, the outcome is
identical whether the CRM would answer 404 or error, and the sink is written
from the job's own payload — contradicting the claim that a partial property
set triggers a fetch of the authoritative state. -/
theorem C9_no_fetch_on_incomplete_props :
    isFullPropertySet [(str ("name"), str ("Acme"))] = false ∧
    shouldFetchFull jobIncomplete = false ∧
    processObjectSync jobIncomplete .notFound .ok 2026 (str ("t"))
      = processObjectSync jobIncomplete .fetchError .ok 2026 (str ("t")) ∧
    processObjectSync jobIncomplete .notFound .ok 2026 (str ("t"))
      ≠ .completed [] := by
  decide

/-- C9 (amended): the worker fetches the full object from the CRM iff the
event type contains `creation` or the property payload is absent entirely; a
present (even incomplete) payload on a non-creation event is used as-is —
the job's outcome is then independent of the CRM store — while a job that
does fetch transforms and pushes exactly the fetched object. -/
theorem C9_fetch_condition_amended (job : JobData) (crm crm' : CrmResult)
    (sink : SinkResult) (y : Nat) (d : Str) (obj : CrmObject) :
    (shouldFetchFull job = true ↔
      jsIncludes job.eventType (str ("creation")) = true ∨ job.properties = none) ∧
    (shouldFetchFull job = false →
      processObjectSync job crm sink y d = processObjectSync job crm' sink y d) ∧
    (shouldFetchFull job = true →
      processObjectSync job (.found obj) .ok y d = .completed
        [{ data := [convertToDataboxFormat y d job.objectType obj]
           source := str ("HubSpot-Webhook-") ++ job.objectType }]) := by
  refine ⟨?_, ?_, ?_⟩
  · simp [shouldFetchFull, Bool.or_eq_true, Option.isNone_iff_eq_none]
  · intro h
    simp [processObjectSync, h]
  · intro h
    simp [processObjectSync, h]

/-- C9 witness: the incomplete-payload job is CRM-independent, and a
creation job with the full fetched company object pushes exactly that
object's conversion. -/
theorem C9_fetch_condition_amended_witness :
    processObjectSync jobIncomplete .notFound .ok 2026 (str ("t"))
      = processObjectSync jobIncomplete .fetchError .ok 2026 (str ("t")) ∧
    processObjectSync jobCreation (.found fullCompanyObj) .ok 2026 (str ("t"))
      = .completed
        [{ data := [convertToDataboxFormat 2026 (str ("t")) jobCreation.objectType fullCompanyObj]
           source := str ("HubSpot-Webhook-") ++ jobCreation.objectType }] :=
  ⟨(C9_fetch_condition_amended jobIncomplete .notFound .fetchError .ok 2026 (str ("t"))
      fullCompanyObj).2.1 (by decide),
   (C9_fetch_condition_amended jobCreation .notFound .fetchError .ok 2026 (str ("t"))
      fullCompanyObj).2.2 (by decide)⟩

/-- C10: when the CRM fetch for a fetching job returns 404, the processor
returns normally with NO sink write — whatever the sink would have done —
so the queue marks the job done after that attempt, and a done job stays
done under every further step: it is never retried. -/
theorem C10_crm_404_benign (job : JobData) (sink : SinkResult) (y : Nat) (d : Str)
    (v a now : Nat) (tr : List (Bool × Nat)) (h : shouldFetchFull job = true) :
    processObjectSync job .notFound sink y d = .completed [] ∧
    jobStep maxRetries (.pending v a)
      (processObjectSync job .notFound sink y d == .threw) now = .done (a + 1) ∧
    runJobTrace maxRetries (.done (a + 1)) tr = .done (a + 1) := by
  have hp : processObjectSync job .notFound sink y d = .completed [] := by
    simp [processObjectSync, h]
  refine ⟨hp, ?_, runJobTrace_done maxRetries (a + 1) tr⟩
  rw [hp]
  rfl

/-- C10 witness: a creation job (which must fetch) whose CRM fetch 404s is
done with no sink write even when the sink itself would be failing. -/
theorem C10_crm_404_benign_witness :
    processObjectSync jobCreation .notFound .sinkError 2026 (str ("t")) = .completed [] ∧
    jobStep maxRetries (.pending 100 0)
      (processObjectSync jobCreation .notFound .sinkError 2026 (str ("t")) == .threw) 200
      = .done 1 ∧
    runJobTrace maxRetries (.done 1) [(true, 300)] = .done 1 :=
  C10_crm_404_benign jobCreation .sinkError 2026 (str ("t")) 100 0 200 [(true, 300)]
    (by decide)
